import Mathlib

/-!
# Verification of the Packrat hash-reconciliation and auto-snapshot engine

Shallow embedding of `src/cpp/session/modules/SessionPackrat.cpp`: the
subsystem that keeps a project lockfile and its private package library
consistent by comparing stored content hashes against freshly computed
ones, and that schedules an external "auto snapshot" synchronization
process, coalescing duplicate requests and queueing follow-ups while one
is in flight.

Modelling choices:

* The mutable session state touched by this module — the two persisted
  hashes (`r::session::clientState()` keys `packratLockfileHash` and
  `packratLibraryHash`), the static `pendingSnapshots` counter in
  `pendingSnapshot`, and the static `pAutoSnapshot` handle in
  `performAutoSnapshot` — is collected in `PackratState` and threaded
  explicitly.
* The external world read by a pass — the hash of the current on-disk
  lockfile (`computeLockfileHash`), the hash of the library DESCRIPTION
  files (`computeLibraryHash`), and the result of the
  `.rs.pendingRestoreActions` R query (`none` models the query returning
  an `Error`) — is an `Env` passed in; these readers are pure functions
  of disk/R state at one instant.
* Observable side effects other than state updates — client events
  enqueued via `enqueClientEvent` and external snapshot processes
  launched via `AutoSnapshot::create` — are returned in `Effects`.
* The `DROP_RECURSIVE_CALLS` reentrancy guard in `checkHashes` is
  modelled by an explicit `reentrant : Bool` argument: `true` means a
  reconciliation pass is already in progress in this call context.
-/

namespace SessionPackrat

/-- `enum PackratHashType` from the source. -/
inductive PackratHashType where
  | lockfile
  | library
deriving DecidableEq, Repr

/-- `enum PendingSnapshotAction` from the source. -/
inductive PendingSnapshotAction where
  | setPendingSnapshot
  | completeSnapshot
deriving DecidableEq, Repr

/-- `keyOfHashType` from the source: the client-state key for each hash kind. -/
def keyOfHashType : PackratHashType → String
  | .lockfile => "packratLockfileHash"
  | .library => "packratLibraryHash"

/-- The `AutoSnapshot` handle: the target hash recorded at creation
(`setTargetHash`) and whether the external process is still running
(`AsyncRProcess::isRunning`). -/
structure Snapshot where
  targetHash : String
  running : Bool
deriving DecidableEq, Repr

/-- The mutable state owned by the module: the two persisted hashes, the
static `pendingSnapshots` counter, and the static `pAutoSnapshot`
handle (`none` models a null shared pointer). -/
structure PackratState where
  storedLockfileHash : String
  storedLibraryHash : String
  pendingSnapshots : Nat
  activeSnapshot : Option Snapshot
deriving DecidableEq, Repr

/-- Client events enqueued by the module. -/
inductive ClientEvent where
  | installedPackagesChanged
  | packratRestoreNeeded (actions : List String)
deriving DecidableEq, Repr

/-- Observable side effects of one entry into the module: client events
enqueued, and target hashes of external snapshot processes launched. -/
structure Effects where
  events : List ClientEvent
  launches : List String
deriving DecidableEq, Repr

/-- No observable side effect. -/
def noEffects : Effects := { events := [], launches := [] }

/-- The external world read during one pass: the freshly computed
lockfile hash (`computeLockfileHash`), the freshly computed library hash
(`computeLibraryHash`), the project directory path components, and the
result of the `.rs.pendingRestoreActions` query (`none` = the R call
returned an `Error`). -/
structure Env where
  projectDir : List String
  lockfileHash : String
  libraryHash : String
  pendingRestoreActions : Option (List String)
deriving DecidableEq, Repr

/-- `getStoredHash` from the source: read the persisted hash for a kind. -/
def getStoredHash (hashType : PackratHashType) (s : PackratState) : String :=
  match hashType with
  | .lockfile => s.storedLockfileHash
  | .library => s.storedLibraryHash

/-- `setStoredHash` from the source: persist a hash for a kind. -/
def setStoredHash (hashType : PackratHashType) (hash : String)
    (s : PackratState) : PackratState :=
  match hashType with
  | .lockfile => { s with storedLockfileHash := hash }
  | .library => { s with storedLibraryHash := hash }

/-- `getComputedHash` from the source: `computeLockfileHash()` for the
lockfile kind, `computeLibraryHash()` for the library kind; both are
reads of the `Env`. -/
def getComputedHash (hashType : PackratHashType) (env : Env) : String :=
  match hashType with
  | .lockfile => env.lockfileHash
  | .library => env.libraryHash

/-- The `SET_PENDING_SNAPSHOT` branch of `pendingSnapshot` from the
source: increment the static counter and return. Split out as its own
definition because in the C++ `performAutoSnapshot` and
`pendingSnapshot` call each other; only this non-recursive branch is
reachable from `performAutoSnapshot`, so splitting it breaks the benign
mutual recursion. -/
def pendingSnapshotSet (s : PackratState) : PackratState × Effects :=
  ({ s with pendingSnapshots := s.pendingSnapshots + 1 }, noEffects)

/-- `AutoSnapshot::create` from the source: record the target hash and
start the external snapshot process (observable as a launch). -/
def startSnapshot (newHash : String) (s : PackratState) :
    PackratState × Effects :=
  ({ s with activeSnapshot := some { targetHash := newHash, running := true } },
   { events := [], launches := [newHash] })

/-- `performAutoSnapshot` from the source: if a snapshot process is
running, absorb a request for the same target and queue (increment the
pending counter for) a request for a different target; otherwise start a
new snapshot. -/
def performAutoSnapshot (newHash : String) (s : PackratState) :
    PackratState × Effects :=
  match s.activeSnapshot with
  | some snap =>
    if snap.running then
      if snap.targetHash = newHash then
        (s, noEffects)
      else
        pendingSnapshotSet s
    else
      startSnapshot newHash s
  | none => startSnapshot newHash s

/-- `pendingSnapshot` from the source. On `COMPLETE_SNAPSHOT`: if
requests were queued while the finished snapshot ran, reset the counter
and start a fresh snapshot targeting the library hash recomputed now;
otherwise persist both freshly computed hashes and enqueue an
`InstalledPackagesChanged` client event. -/
def pendingSnapshot (env : Env) (action : PendingSnapshotAction)
    (s : PackratState) : PackratState × Effects :=
  match action with
  | .setPendingSnapshot => pendingSnapshotSet s
  | .completeSnapshot =>
    if s.pendingSnapshots > 0 then
      performAutoSnapshot env.libraryHash { s with pendingSnapshots := 0 }
    else
      (setStoredHash .library env.libraryHash
        (setStoredHash .lockfile env.lockfileHash s),
       { events := [ClientEvent.installedPackagesChanged], launches := [] })

/-- `AutoSnapshot::onCompleted` from the source: on non-zero exit status
just return (the failure was already reported in the console); on zero
exit run `pendingSnapshot(COMPLETE_SNAPSHOT)`. -/
def onCompleted (env : Env) (exitStatus : Int) (s : PackratState) :
    PackratState × Effects :=
  if exitStatus ≠ 0 then (s, noEffects)
  else pendingSnapshot env .completeSnapshot s

/-- Modelled from the spec: the `AsyncRProcess` framework (declared in
`SessionAsyncRProcess.hpp`, not part of this file's source) marks the
process handle as no longer running when the external process exits,
before `onCompleted` is delivered; the spec records that the active
snapshot handle stops being live on process completion. -/
def markSnapshotExited (s : PackratState) : PackratState :=
  match s.activeSnapshot with
  | some snap => { s with activeSnapshot := some { snap with running := false } }
  | none => s

/-- One delivery of a snapshot-process exit: the framework marks the
process as exited, then `AutoSnapshot::onCompleted` runs with the exit
status. -/
def snapshotExitStep (env : Env) (exitStatus : Int) (s : PackratState) :
    PackratState × Effects :=
  onCompleted env exitStatus (markSnapshotExited s)

/-- `checkHashes` from the source: the guarded reconciliation pass.
`reentrant = true` models `DROP_RECURSIVE_CALLS` firing (a pass is
already active in this call context), which makes the call a no-op. -/
def checkHashes (reentrant : Bool) (primary secondary : PackratHashType)
    (onPrimaryMismatch : String → String → PackratState → PackratState × Effects)
    (env : Env) (s : PackratState) : PackratState × Effects :=
  if reentrant then (s, noEffects)
  else
    let oldHash := getStoredHash primary s
    let newHash := getComputedHash primary env
    if oldHash = newHash then
      (s, noEffects)
    else if getStoredHash secondary s = getComputedHash secondary env then
      onPrimaryMismatch oldHash newHash s
    else
      (setStoredHash secondary (getComputedHash secondary env)
        (setStoredHash primary newHash s), noEffects)

/-- `onLockfileUpdate` from the source: query pending restore actions;
on query error, log and return; on an empty result persist the new
lockfile hash; on a non-empty result enqueue a `PackratRestoreNeeded`
client event carrying the actions, without persisting the hash. -/
def onLockfileUpdate (env : Env) (oldHash newHash : String)
    (s : PackratState) : PackratState × Effects :=
  match env.pendingRestoreActions with
  | none => (s, noEffects)
  | some actions =>
    if actions.length = 0 then
      (setStoredHash .lockfile newHash s, noEffects)
    else
      (s, { events := [ClientEvent.packratRestoreNeeded actions],
            launches := [] })

/-- `onLibraryUpdate` from the source: request an auto snapshot
targeting the new library hash. -/
def onLibraryUpdate (env : Env) (oldHash newHash : String)
    (s : PackratState) : PackratState × Effects :=
  performAutoSnapshot newHash s

/-- A file path as seen by `onFileChanged`: its components from the
filesystem root, plus whether it is a directory. -/
structure MFilePath where
  components : List String
  isDir : Bool
deriving DecidableEq, Repr

/-- `FilePath::filename`: the last path component. -/
def filename (p : MFilePath) : String :=
  p.components.getLast?.getD ""

/-- `FilePath::parent().filename()`: the second-to-last path component. -/
def parentFilename (p : MFilePath) : String :=
  p.components.dropLast.getLast?.getD ""

/-- `FilePath::isWithin dir`: the path is the directory itself or a
descendant of it. -/
def isWithin (p : MFilePath) (dir : List String) : Bool :=
  dir.isPrefixOf p.components

/-- The Packrat private library directory:
`projectContext().directory().complete("packrat/lib")`. -/
def packratLibPath (env : Env) : List String :=
  env.projectDir ++ ["packrat", "lib"]

/-- The project lockfile path:
`projectContext().directory().complete("packrat/packrat.lock")`. -/
def lockfilePath (env : Env) : List String :=
  env.projectDir ++ ["packrat", "packrat.lock"]

/-- Which reconciliation, if any, `onFileChanged` dispatches for a path.
This reifies the branch structure of `onFileChanged` in the source: the
lockfile branch when the filename is `packrat.lock`; the library branch
when the path is within the library directory, is a directory or a
`DESCRIPTION` file, and is not in (or directly under) the
RStudio-managed `manipulate`/`rstudio` directories; otherwise ignored. -/
inductive Route where
  | lockfile
  | library
  | ignored
deriving DecidableEq, Repr

/-- The branch of `onFileChanged` taken for a changed path. -/
def routeFileChange (env : Env) (p : MFilePath) : Route :=
  if filename p = "packrat.lock" then
    Route.lockfile
  else if isWithin p (packratLibPath env) ∧
          (p.isDir = true ∨ filename p = "DESCRIPTION") then
    if filename p = "manipulate" ∨ filename p = "rstudio" ∨
       parentFilename p = "manipulate" ∨ parentFilename p = "rstudio" then
      Route.ignored
    else
      Route.library
  else
    Route.ignored

/-- `onFileChanged` from the source: route the changed path and run the
corresponding guarded reconciliation pass. -/
def onFileChanged (reentrant : Bool) (env : Env) (p : MFilePath)
    (s : PackratState) : PackratState × Effects :=
  match routeFileChange env p with
  | Route.lockfile =>
    checkHashes reentrant .lockfile .library (onLockfileUpdate env) env s
  | Route.library =>
    checkHashes reentrant .library .lockfile (onLibraryUpdate env) env s
  | Route.ignored => (s, noEffects)

/-! ## Helper lemmas -/

/-- `markSnapshotExited` leaves the persisted lockfile hash unchanged. -/
theorem markSnapshotExited_storedLockfileHash (s : PackratState) :
    (markSnapshotExited s).storedLockfileHash = s.storedLockfileHash := by
  cases h : s.activeSnapshot <;> simp [markSnapshotExited, h]

/-- `markSnapshotExited` leaves the persisted library hash unchanged. -/
theorem markSnapshotExited_storedLibraryHash (s : PackratState) :
    (markSnapshotExited s).storedLibraryHash = s.storedLibraryHash := by
  cases h : s.activeSnapshot <;> simp [markSnapshotExited, h]

/-- `markSnapshotExited` leaves the pending-snapshot counter unchanged. -/
theorem markSnapshotExited_pendingSnapshots (s : PackratState) :
    (markSnapshotExited s).pendingSnapshots = s.pendingSnapshots := by
  cases h : s.activeSnapshot <;> simp [markSnapshotExited, h]

/-! ## Claim theorems -/

/-- C9: a reconciliation pass entered while another pass is already in
progress in the same call context (`reentrant = true`, the state in
which `DROP_RECURSIVE_CALLS` fires) executes none of the hash
comparison or resolution steps: it returns the state unchanged with no
side effects, for every choice of primary/secondary kinds, mismatch
callback, environment and state. -/
theorem checkHashes_reentrant_noop (primary secondary : PackratHashType)
    (cb : String → String → PackratState → PackratState × Effects)
    (env : Env) (s : PackratState) :
    checkHashes true primary secondary cb env s = (s, noEffects) := rfl

/-- C3: when both the primary and the secondary computed hashes differ
from their stored values, the pass overwrites both stored hashes with
the freshly computed values and produces no side effect; the mismatch
callback is not invoked (the result does not depend on `cb`). -/
theorem checkHashes_bothDrifted (primary secondary : PackratHashType)
    (cb : String → String → PackratState → PackratState × Effects)
    (env : Env) (s : PackratState)
    (hp : getStoredHash primary s ≠ getComputedHash primary env)
    (hs : getStoredHash secondary s ≠ getComputedHash secondary env) :
    checkHashes false primary secondary cb env s =
      (setStoredHash secondary (getComputedHash secondary env)
        (setStoredHash primary (getComputedHash primary env) s),
       noEffects) := by
  unfold checkHashes
  simp [hp, hs]

/-- Witness for C3 at concrete inputs: stored hashes `"A"`/`"B"`, both
computed hashes drifted to `"A2"`/`"B2"`. -/
theorem checkHashes_bothDrifted_witness :
    getStoredHash .lockfile ⟨"A", "B", 0, none⟩ ≠
      getComputedHash .lockfile ⟨["p"], "A2", "B2", none⟩ ∧
    getStoredHash .library ⟨"A", "B", 0, none⟩ ≠
      getComputedHash .library ⟨["p"], "A2", "B2", none⟩ ∧
    checkHashes false .lockfile .library (fun _ _ st => (st, noEffects))
        ⟨["p"], "A2", "B2", none⟩ ⟨"A", "B", 0, none⟩ =
      (setStoredHash .library
        (getComputedHash .library ⟨["p"], "A2", "B2", none⟩)
        (setStoredHash .lockfile
          (getComputedHash .lockfile ⟨["p"], "A2", "B2", none⟩)
          ⟨"A", "B", 0, none⟩),
       noEffects) :=
  ⟨by decide, by decide,
   checkHashes_bothDrifted .lockfile .library (fun _ _ st => (st, noEffects))
     ⟨["p"], "A2", "B2", none⟩ ⟨"A", "B", 0, none⟩ (by decide) (by decide)⟩

/-- C1 counterexample: a lockfile reconciliation in which the lockfile
hash drifted (`"A"` stored vs `"A2"` computed), the library hash did not
(`"B"` = `"B"`), and the pending-restore-actions query fails
(`pendingRestoreActions = none`). The claim says the handler then
updates the stored lockfile hash to `"A2"` just as in the empty-result
case; in fact the stored hash remains `"A"`. -/
theorem lockfileQueryFailure_cex :
    (⟨"A", "B", 0, none⟩ : PackratState).storedLockfileHash ≠
      (⟨["p"], "A2", "B", none⟩ : Env).lockfileHash ∧
    (⟨"A", "B", 0, none⟩ : PackratState).storedLibraryHash =
      (⟨["p"], "A2", "B", none⟩ : Env).libraryHash ∧
    (⟨["p"], "A2", "B", none⟩ : Env).pendingRestoreActions = none ∧
    (checkHashes false .lockfile .library
        (onLockfileUpdate ⟨["p"], "A2", "B", none⟩)
        ⟨["p"], "A2", "B", none⟩
        ⟨"A", "B", 0, none⟩).1.storedLockfileHash ≠ "A2" := by decide

/-- C1 (amended): in a lockfile reconciliation where the lockfile hash
drifted and the library hash did not, if the pending-restore-actions
query fails, the handler logs the error and returns with the state
unchanged — in particular the stored lockfile hash is NOT updated
(unlike the empty-result case) and no notification is emitted. -/
theorem lockfileQueryFailure_noop (env : Env) (s : PackratState)
    (hdrift : s.storedLockfileHash ≠ env.lockfileHash)
    (hlib : s.storedLibraryHash = env.libraryHash)
    (hq : env.pendingRestoreActions = none) :
    checkHashes false .lockfile .library (onLockfileUpdate env) env s =
      (s, noEffects) := by
  unfold checkHashes onLockfileUpdate
  simp [getStoredHash, getComputedHash, hdrift, hlib, hq]

/-- Witness for the amended C1 at the same concrete inputs as the
counterexample. -/
theorem lockfileQueryFailure_noop_witness :
    (⟨"A", "B", 0, none⟩ : PackratState).storedLockfileHash ≠
      (⟨["p"], "A2", "B", none⟩ : Env).lockfileHash ∧
    (⟨"A", "B", 0, none⟩ : PackratState).storedLibraryHash =
      (⟨["p"], "A2", "B", none⟩ : Env).libraryHash ∧
    (⟨["p"], "A2", "B", none⟩ : Env).pendingRestoreActions = none ∧
    checkHashes false .lockfile .library
        (onLockfileUpdate ⟨["p"], "A2", "B", none⟩)
        ⟨["p"], "A2", "B", none⟩ ⟨"A", "B", 0, none⟩ =
      (⟨"A", "B", 0, none⟩, noEffects) :=
  ⟨by decide, by decide, by decide,
   lockfileQueryFailure_noop ⟨["p"], "A2", "B", none⟩ ⟨"A", "B", 0, none⟩
     (by decide) (by decide) (by decide)⟩

/-- C6: in a lockfile reconciliation where the lockfile hash drifted and
the library hash did not, if the pending-restore-actions query succeeds
with result `acts`: an empty result updates the stored lockfile hash to
the new computed hash and emits nothing; a non-empty result leaves the
state unchanged and emits a restore-needed notification carrying the
actions. -/
theorem lockfileUpdate_gating (env : Env) (s : PackratState)
    (acts : List String)
    (hdrift : s.storedLockfileHash ≠ env.lockfileHash)
    (hlib : s.storedLibraryHash = env.libraryHash)
    (hq : env.pendingRestoreActions = some acts) :
    checkHashes false .lockfile .library (onLockfileUpdate env) env s =
      if acts = [] then
        ({ s with storedLockfileHash := env.lockfileHash }, noEffects)
      else
        (s, { events := [ClientEvent.packratRestoreNeeded acts],
              launches := [] }) := by
  unfold checkHashes onLockfileUpdate
  simp [getStoredHash, getComputedHash, setStoredHash, hdrift, hlib, hq,
    List.length_eq_zero]

/-- Witness for C6 at concrete inputs: the non-empty branch, with one
pending restore action. -/
theorem lockfileUpdate_gating_witness :
    (⟨"A", "B", 0, none⟩ : PackratState).storedLockfileHash ≠
      (⟨["p"], "A2", "B", some ["act"]⟩ : Env).lockfileHash ∧
    (⟨"A", "B", 0, none⟩ : PackratState).storedLibraryHash =
      (⟨["p"], "A2", "B", some ["act"]⟩ : Env).libraryHash ∧
    (⟨["p"], "A2", "B", some ["act"]⟩ : Env).pendingRestoreActions =
      some ["act"] ∧
    checkHashes false .lockfile .library
        (onLockfileUpdate ⟨["p"], "A2", "B", some ["act"]⟩)
        ⟨["p"], "A2", "B", some ["act"]⟩ ⟨"A", "B", 0, none⟩ =
      if (["act"] : List String) = [] then
        ({ (⟨"A", "B", 0, none⟩ : PackratState) with
            storedLockfileHash := "A2" }, noEffects)
      else
        (⟨"A", "B", 0, none⟩,
         { events := [ClientEvent.packratRestoreNeeded ["act"]],
           launches := [] }) :=
  ⟨by decide, by decide, by decide,
   lockfileUpdate_gating ⟨["p"], "A2", "B", some ["act"]⟩
     ⟨"A", "B", 0, none⟩ ["act"] (by decide) (by decide) (by decide)⟩

/-- C2 counterexample: a change event for `/tmp/packrat.lock` — a path
that is not the project's lockfile path `p/packrat/packrat.lock` —
nevertheless takes the lockfile branch of `onFileChanged` and executes
the lockfile reconciliation (here it updates the stored lockfile hash
from `"A"` to `"A2"`), contradicting the claim that only an exact match
on the project lockfile path dispatches lockfile reconciliation. -/
theorem lockfileRoute_path_cex :
    (⟨["tmp", "packrat.lock"], false⟩ : MFilePath).components ≠
      lockfilePath ⟨["p"], "A2", "B", some []⟩ ∧
    routeFileChange ⟨["p"], "A2", "B", some []⟩
      ⟨["tmp", "packrat.lock"], false⟩ = Route.lockfile ∧
    (onFileChanged false ⟨["p"], "A2", "B", some []⟩
        ⟨["tmp", "packrat.lock"], false⟩
        ⟨"A", "B", 0, none⟩).1.storedLockfileHash = "A2" := by decide

/-- C2 (amended): `onFileChanged` dispatches lockfile reconciliation
exactly when the changed path's last component (filename) is
`packrat.lock`, regardless of which directory the file is in — not only
for the project's own lockfile path. -/
theorem lockfileRoute_iff_filename (env : Env) (p : MFilePath) :
    routeFileChange env p = Route.lockfile ↔
      filename p = "packrat.lock" := by
  unfold routeFileChange
  split
  · simp_all
  · split
    · split <;> simp_all
    · simp_all

/-- C5: starting from a state with no active snapshot process, two
`performAutoSnapshot` requests for the same target `h1` launch exactly
one external process: the first launches the process targeting `h1`, and
the second is absorbed — it returns the state unchanged (in particular
the pending count is not incremented) and launches nothing. -/
theorem requestSnapshot_coalesce (h1 : String) (s : PackratState)
    (hnone : s.activeSnapshot = none) :
    (performAutoSnapshot h1 s).2.launches = [h1] ∧
    performAutoSnapshot h1 (performAutoSnapshot h1 s).1 =
      ((performAutoSnapshot h1 s).1, noEffects) := by
  simp [performAutoSnapshot, startSnapshot, hnone]

/-- Witness for C5 at a concrete state with no active snapshot. -/
theorem requestSnapshot_coalesce_witness :
    (⟨"A", "B", 0, none⟩ : PackratState).activeSnapshot = none ∧
    ((performAutoSnapshot "h1" ⟨"A", "B", 0, none⟩).2.launches = ["h1"] ∧
     performAutoSnapshot "h1"
         (performAutoSnapshot "h1" ⟨"A", "B", 0, none⟩).1 =
       ((performAutoSnapshot "h1" ⟨"A", "B", 0, none⟩).1, noEffects)) :=
  ⟨by decide, requestSnapshot_coalesce "h1" ⟨"A", "B", 0, none⟩ (by decide)⟩

/-- C4: with a snapshot targeting `h1` running, a request for a
different target `h2 ≠ h1` launches nothing and increments the pending
count; when the `h1` run then exits with status 0, exactly one follow-up
synchronization is launched, its target is the library hash recomputed
at completion time (`env2.libraryHash`, not the stale `h2`), and the
pending count is reset to zero. -/
theorem queuedSnapshot_followup (env2 : Env) (s : PackratState)
    (h1 h2 : String)
    (hact : s.activeSnapshot = some { targetHash := h1, running := true })
    (hne : h2 ≠ h1) :
    (performAutoSnapshot h2 s).2 = noEffects ∧
    (performAutoSnapshot h2 s).1.pendingSnapshots =
      s.pendingSnapshots + 1 ∧
    (snapshotExitStep env2 0 (performAutoSnapshot h2 s).1).2.launches =
      [env2.libraryHash] ∧
    (snapshotExitStep env2 0 (performAutoSnapshot h2 s).1).2.events = [] ∧
    (snapshotExitStep env2 0 (performAutoSnapshot h2 s).1).1.pendingSnapshots
      = 0 := by
  have hne1 : h1 ≠ h2 := hne.symm
  simp [performAutoSnapshot, pendingSnapshotSet, snapshotExitStep,
    markSnapshotExited, onCompleted, pendingSnapshot, startSnapshot,
    noEffects, hact, hne1]

/-- Witness for C4 at concrete inputs: snapshot targeting `"h1"`
running, request for `"h2"`, completion-time library hash `"L"`. -/
theorem queuedSnapshot_followup_witness :
    (⟨"A", "B", 0, some ⟨"h1", true⟩⟩ : PackratState).activeSnapshot =
      some { targetHash := "h1", running := true } ∧
    ("h2" : String) ≠ "h1" ∧
    ((performAutoSnapshot "h2" ⟨"A", "B", 0, some ⟨"h1", true⟩⟩).2 =
       noEffects ∧
     (performAutoSnapshot "h2"
         ⟨"A", "B", 0, some ⟨"h1", true⟩⟩).1.pendingSnapshots = 0 + 1 ∧
     (snapshotExitStep ⟨["p"], "A2", "L", none⟩ 0
         (performAutoSnapshot "h2"
           ⟨"A", "B", 0, some ⟨"h1", true⟩⟩).1).2.launches = ["L"] ∧
     (snapshotExitStep ⟨["p"], "A2", "L", none⟩ 0
         (performAutoSnapshot "h2"
           ⟨"A", "B", 0, some ⟨"h1", true⟩⟩).1).2.events = [] ∧
     (snapshotExitStep ⟨["p"], "A2", "L", none⟩ 0
         (performAutoSnapshot "h2"
           ⟨"A", "B", 0, some ⟨"h1", true⟩⟩).1).1.pendingSnapshots = 0) :=
  ⟨by decide, by decide,
   queuedSnapshot_followup ⟨["p"], "A2", "L", none⟩
     ⟨"A", "B", 0, some ⟨"h1", true⟩⟩ "h1" "h2" (by decide) (by decide)⟩

/-- C7: when a snapshot run exits with status 0 and the pending count is
zero, both stored hashes are set to the hashes freshly computed at that
moment, an installed-packages-changed notification is emitted, and no
new synchronization is launched. -/
theorem snapshotComplete_noPending (env : Env) (s : PackratState)
    (hp : s.pendingSnapshots = 0) :
    (snapshotExitStep env 0 s).1.storedLockfileHash = env.lockfileHash ∧
    (snapshotExitStep env 0 s).1.storedLibraryHash = env.libraryHash ∧
    (snapshotExitStep env 0 s).2.events =
      [ClientEvent.installedPackagesChanged] ∧
    (snapshotExitStep env 0 s).2.launches = [] := by
  simp [snapshotExitStep, onCompleted, pendingSnapshot, setStoredHash,
    markSnapshotExited_pendingSnapshots, hp]

/-- Witness for C7 at concrete inputs: pending count 0, completion-time
hashes `"A2"`/`"L"`. -/
theorem snapshotComplete_noPending_witness :
    (⟨"A", "B", 0, some ⟨"h1", true⟩⟩ : PackratState).pendingSnapshots
      = 0 ∧
    ((snapshotExitStep ⟨["p"], "A2", "L", none⟩ 0
        ⟨"A", "B", 0, some ⟨"h1", true⟩⟩).1.storedLockfileHash = "A2" ∧
     (snapshotExitStep ⟨["p"], "A2", "L", none⟩ 0
        ⟨"A", "B", 0, some ⟨"h1", true⟩⟩).1.storedLibraryHash = "L" ∧
     (snapshotExitStep ⟨["p"], "A2", "L", none⟩ 0
        ⟨"A", "B", 0, some ⟨"h1", true⟩⟩).2.events =
       [ClientEvent.installedPackagesChanged] ∧
     (snapshotExitStep ⟨["p"], "A2", "L", none⟩ 0
        ⟨"A", "B", 0, some ⟨"h1", true⟩⟩).2.launches = []) :=
  ⟨by decide,
   snapshotComplete_noPending ⟨["p"], "A2", "L", none⟩
     ⟨"A", "B", 0, some ⟨"h1", true⟩⟩ (by decide)⟩

/-- C8: when a snapshot run exits with a non-zero status, no stored hash
is changed, the pending count is unchanged, and no side effect occurs
(no follow-up launch, no notification). -/
theorem snapshotFailed_noAction (env : Env) (e : Int) (s : PackratState)
    (he : e ≠ 0) :
    (snapshotExitStep env e s).1.storedLockfileHash =
      s.storedLockfileHash ∧
    (snapshotExitStep env e s).1.storedLibraryHash =
      s.storedLibraryHash ∧
    (snapshotExitStep env e s).1.pendingSnapshots = s.pendingSnapshots ∧
    (snapshotExitStep env e s).2 = noEffects := by
  simp [snapshotExitStep, onCompleted, he,
    markSnapshotExited_storedLockfileHash,
    markSnapshotExited_storedLibraryHash,
    markSnapshotExited_pendingSnapshots]

/-- Witness for C8 at concrete inputs: exit status 1. -/
theorem snapshotFailed_noAction_witness :
    ((1 : Int) ≠ 0) ∧
    ((snapshotExitStep ⟨["p"], "A2", "L", none⟩ 1
        ⟨"A", "B", 2, some ⟨"h1", true⟩⟩).1.storedLockfileHash = "A" ∧
     (snapshotExitStep ⟨["p"], "A2", "L", none⟩ 1
        ⟨"A", "B", 2, some ⟨"h1", true⟩⟩).1.storedLibraryHash = "B" ∧
     (snapshotExitStep ⟨["p"], "A2", "L", none⟩ 1
        ⟨"A", "B", 2, some ⟨"h1", true⟩⟩).1.pendingSnapshots = 2 ∧
     (snapshotExitStep ⟨["p"], "A2", "L", none⟩ 1
        ⟨"A", "B", 2, some ⟨"h1", true⟩⟩).2 = noEffects) :=
  ⟨by decide,
   snapshotFailed_noAction ⟨["p"], "A2", "L", none⟩ 1
     ⟨"A", "B", 2, some ⟨"h1", true⟩⟩ (by decide)⟩

/-- C10: a non-zero-exit completion does not reset the pending count:
with requests queued (`0 < pendingSnapshots`) and a snapshot targeting
`h1` running, a failed run leaves the count unchanged; a later snapshot
request for `h2` then launches (the failed process is no longer
running) without touching the count, and when that later run exits with
status 0 it launches a follow-up targeting the then-recomputed library
hash — even though no new request arrived while it ran — and resets the
count to zero. -/
theorem pendingCount_survives_failure (env1 env3 : Env) (e : Int)
    (s : PackratState) (h1 h2 : String)
    (hp : 0 < s.pendingSnapshots)
    (hact : s.activeSnapshot = some { targetHash := h1, running := true })
    (he : e ≠ 0) :
    (snapshotExitStep env1 e s).1.pendingSnapshots = s.pendingSnapshots ∧
    (performAutoSnapshot h2 (snapshotExitStep env1 e s).1).2.launches =
      [h2] ∧
    (performAutoSnapshot h2
      (snapshotExitStep env1 e s).1).1.pendingSnapshots =
      s.pendingSnapshots ∧
    (snapshotExitStep env3 0
      (performAutoSnapshot h2
        (snapshotExitStep env1 e s).1).1).2.launches =
      [env3.libraryHash] ∧
    (snapshotExitStep env3 0
      (performAutoSnapshot h2
        (snapshotExitStep env1 e s).1).1).1.pendingSnapshots = 0 := by
  simp [snapshotExitStep, onCompleted, markSnapshotExited,
    performAutoSnapshot, startSnapshot, pendingSnapshot, hact, he, hp]

/-- Witness for C10 at concrete inputs: one queued request, snapshot
targeting `"h1"` running, failed exit 1, later request `"h2"`,
final completion-time library hash `"L3"`. -/
theorem pendingCount_survives_failure_witness :
    (0 < (⟨"A", "B", 1, some ⟨"h1", true⟩⟩ : PackratState).pendingSnapshots) ∧
    (⟨"A", "B", 1, some ⟨"h1", true⟩⟩ : PackratState).activeSnapshot =
      some { targetHash := "h1", running := true } ∧
    ((1 : Int) ≠ 0) ∧
    ((snapshotExitStep ⟨["p"], "A1", "L1", none⟩ 1
        ⟨"A", "B", 1, some ⟨"h1", true⟩⟩).1.pendingSnapshots = 1 ∧
     (performAutoSnapshot "h2"
        (snapshotExitStep ⟨["p"], "A1", "L1", none⟩ 1
          ⟨"A", "B", 1, some ⟨"h1", true⟩⟩).1).2.launches = ["h2"] ∧
     (performAutoSnapshot "h2"
        (snapshotExitStep ⟨["p"], "A1", "L1", none⟩ 1
          ⟨"A", "B", 1, some ⟨"h1", true⟩⟩).1).1.pendingSnapshots = 1 ∧
     (snapshotExitStep ⟨["p"], "A3", "L3", none⟩ 0
        (performAutoSnapshot "h2"
          (snapshotExitStep ⟨["p"], "A1", "L1", none⟩ 1
            ⟨"A", "B", 1, some ⟨"h1", true⟩⟩).1).1).2.launches = ["L3"] ∧
     (snapshotExitStep ⟨["p"], "A3", "L3", none⟩ 0
        (performAutoSnapshot "h2"
          (snapshotExitStep ⟨["p"], "A1", "L1", none⟩ 1
            ⟨"A", "B", 1, some ⟨"h1", true⟩⟩).1).1).1.pendingSnapshots
       = 0) :=
  ⟨by decide, by decide, by decide,
   pendingCount_survives_failure ⟨["p"], "A1", "L1", none⟩
     ⟨["p"], "A3", "L3", none⟩ 1 ⟨"A", "B", 1, some ⟨"h1", true⟩⟩
     "h1" "h2" (by decide) (by decide) (by decide)⟩

end SessionPackrat
